import Mathlib

/-!
Verification development for the bcoin core infrastructure files:

* `lib/utils/async.js` — the `AsyncObject` lifecycle controller
  (open/close state machine with the `loading`/`closing`/`loaded` flags,
  event-based waiter notification, failure propagation);
* `lib/env.js` — the `Environment.set` configuration entry point;
* `lib/workers/jobs.js` — the worker job registry (`jobs.signInput`,
  `jobs.scrypt`, ...).

The JavaScript is embedded shallowly: machine state is a record of the
boolean flags, each method becomes a total Lean function returning the new
state together with an explicit outcome (usage error, fast-path return,
wait-on-in-flight-transition, completion, failure), and the subsystem-supplied
hooks (`_open` / `_close`) are passed in as `Except`-valued parameters.
JavaScript is single-threaded and cooperative, so the observable interleaving
points are exactly the suspension points of the generator bodies; statement
runs between suspensions are modelled as atomic steps.
-/

namespace Bcoin

/-- Lifecycle flag state of an `AsyncObject` (async.js lines 28-30).
`locker` is `null` by default and external; lock acquisition is tracked in
the call result instead. -/
structure AsyncObject where
  loading : Bool
  closing : Bool
  loaded : Bool
deriving DecidableEq, Repr

/-- Freshly constructed object: all flags false (async.js lines 28-30). -/
def AsyncObject.init : AsyncObject :=
  ⟨false, false, false⟩

/-- Mid-flight state an initiating `open()` creates at line 57
(`this.loading = true`) before suspending in the `_open` hook. -/
def AsyncObject.opening : AsyncObject :=
  ⟨true, false, false⟩

/-- Fully open state reached at lines 75-76. -/
def AsyncObject.openSt : AsyncObject :=
  ⟨false, false, true⟩

/-- Mid-flight state a `close()` creates at lines 104-105
(`this.closing = true; this.loaded = false`) before suspending in `_close`. -/
def AsyncObject.closingSt : AsyncObject :=
  ⟨false, true, false⟩

/-- Messages of the two `assert` guards (async.js lines 44 and 91). -/
inductive UsageMsg where
  | cannotOpenWhileClosing
  | cannotCloseWhileLoading
deriving DecidableEq, Repr

/-- How a single `open()`/`close()` call settles. -/
inductive Outcome where
  /-- The leading `assert` threw. -/
  | usageError (m : UsageMsg)
  /-- Fast path: returned `yield co.wait()` without doing anything. -/
  | noop
  /-- Registered on the in-flight transition via `_onOpen` / `_onClose`. -/
  | waited
  /-- Full transition ran and the hook succeeded. -/
  | ok
  /-- Full transition ran, the hook failed with `e`, the call threw `e`. -/
  | failed (e : Nat)
deriving DecidableEq, Repr

/-- Result of one `open()` or `close()` call: the flag state it leaves
behind, how the call settles, whether the subsystem hook (`_open`/`_close`)
was invoked, and whether the call reached the lock-acquisition step
(lines 52-53 resp. 99-100). -/
structure CallResult where
  state : AsyncObject
  outcome : Outcome
  hookInvoked : Bool
  lockReached : Bool
deriving DecidableEq, Repr

/-- `AsyncObject.prototype.open` (async.js lines 41-81), one call viewed
from its start to its settlement, with the `_open` hook result supplied as
`hook` (`Except.error e` models the hook rejecting with `e`).

Branches in source order: the `assert(!this.closing)` guard (line 44), the
`loaded` fast path (46-47), the `loading` wait path (49-50), then the full
transition: lock (52-53), `loading = true` (57), hook (60), and on failure
`loading = false`, error dispatch, `throw err` (67-73), on success
`loading = false; loaded = true` (75-77). -/
def AsyncObject.openCall (s : AsyncObject) (hook : Except Nat Unit) : CallResult :=
  if s.closing then
    ⟨s, Outcome.usageError UsageMsg.cannotOpenWhileClosing, false, false⟩
  else if s.loaded then
    ⟨s, Outcome.noop, false, false⟩
  else if s.loading then
    ⟨s, Outcome.waited, false, false⟩
  else
    match hook with
    | Except.error e => ⟨{ s with loading := false }, Outcome.failed e, true, true⟩
    | Except.ok _ => ⟨{ s with loading := false, loaded := true }, Outcome.ok, true, true⟩

/-- `AsyncObject.prototype.close` (async.js lines 88-128), same shape as
`openCall`.

Branches in source order: `assert(!this.loading)` (line 91), the `!loaded`
fast path (93-94), the `closing` wait path (96-97), then the full
transition: lock (99-100), `closing = true; loaded = false` (104-105), hook
(108), and on failure `closing = false`, error dispatch, `throw err`
(115-121) — note `loaded` is NOT restored — on success `closing = false`
(123-124). -/
def AsyncObject.close (s : AsyncObject) (hook : Except Nat Unit) : CallResult :=
  if s.loading then
    ⟨s, Outcome.usageError UsageMsg.cannotCloseWhileLoading, false, false⟩
  else if !s.loaded then
    ⟨s, Outcome.noop, false, false⟩
  else if s.closing then
    ⟨s, Outcome.waited, false, false⟩
  else
    match hook with
    | Except.error e => ⟨{ s with closing := false, loaded := false }, Outcome.failed e, true, true⟩
    | Except.ok _ => ⟨{ s with closing := false, loaded := false }, Outcome.ok, true, true⟩

/-! ### Waiter notification on a failed open

`_onOpen` (async.js lines 183-188) registers the waiter's promise `resolve`
as a one-shot listener for the "open" event and never uses `reject`.
`_error` (lines 145-155) snapshots the listeners of the named event,
detaches them all, invokes each with the error, then emits on the general
"error" channel. Invoking a promise `resolve` with a value fulfills the
promise with that value. -/

/-- Settlement of a JavaScript promise. -/
inductive Settled where
  | fulfilled (v : Nat)
  | rejected (e : Nat)
deriving DecidableEq, Repr

/-- Effect of invoking the listener `_onOpen` registered (the waiter's
promise `resolve`, lines 185-187) with value `v`: the waiter's promise is
fulfilled with `v`. -/
def onOpenListenerInvoke (v : Nat) : Settled :=
  Settled.fulfilled v

/-- `AsyncObject.prototype._error` (async.js lines 145-155) applied to the
"open" event: given the identities of the waiters currently registered on
"open", snapshot and detach them all, invoke each registered listener with
`err`. Returns each waiter's resulting settlement and the listener list
left behind (empty, by `removeAllListeners`). -/
def errorDispatch (openWaiters : List Nat) (err : Nat) :
    List (Nat × Settled) × List Nat :=
  (openWaiters.map (fun w => (w, onOpenListenerInvoke err)), [])

/-- Failure tail of `open()` (async.js lines 67-73) for an in-flight open
transition with `openWaiters` registered via `_onOpen`: clear `loading`,
run `_error` over the "open" waiters, release the lock, and throw `err`
(so the initiating call's own promise rejects with `err`). -/
def openFailureCompletion (s : AsyncObject) (openWaiters : List Nat)
    (err : Nat) : AsyncObject × (List (Nat × Settled) × List Nat) × Settled :=
  ({ s with loading := false }, errorDispatch openWaiters err,
    Settled.rejected err)

/-! ### Observable step relation of the lifecycle state machine

Steps are the statement runs between suspension points of the generator
bodies; the guards of each step are the branch conditions the code checks
before executing that run. Lines 104-105 run with no suspension between
them, hence form one step. -/

/-- One observable step of `open()`/`close()` on the flag state. -/
inductive Step : AsyncObject → AsyncObject → Prop where
  /-- line 57: an initiating `open()` past the guards sets `loading`. -/
  | openStart (s : AsyncObject) :
      s.closing = false → s.loaded = false → s.loading = false →
      Step s { s with loading := true }
  /-- lines 75-76: the open transition completes successfully. -/
  | openFinishOk (s : AsyncObject) :
      s.loading = true →
      Step s { s with loading := false, loaded := true }
  /-- line 68: the open transition fails; only `loading` is cleared. -/
  | openFinishErr (s : AsyncObject) :
      s.loading = true →
      Step s { s with loading := false }
  /-- lines 104-105: an initiating `close()` past the guards sets `closing`
  and clears `loaded` (no suspension between the two assignments). -/
  | closeStart (s : AsyncObject) :
      s.loading = false → s.loaded = true → s.closing = false →
      Step s { s with closing := true, loaded := false }
  /-- line 123: the close transition completes successfully. -/
  | closeFinishOk (s : AsyncObject) :
      s.closing = true →
      Step s { s with closing := false }
  /-- line 116: the close transition fails; only `closing` is cleared
  (`loaded` stays false). -/
  | closeFinishErr (s : AsyncObject) :
      s.closing = true →
      Step s { s with closing := false }

/-- States reachable from construction by open/close steps. -/
def Reachable (s : AsyncObject) : Prop :=
  Relation.ReflTransGen Step AsyncObject.init s

/-- Number of lifecycle flags set. -/
def AsyncObject.flagCount (s : AsyncObject) : Nat :=
  (if s.loading then 1 else 0) + (if s.closing then 1 else 0) +
    (if s.loaded then 1 else 0)

/-! ### Worker job registry (lib/workers/jobs.js)

Buffers are byte lists; a witness stack is a list of buffers. The
transaction type `MTX` lives outside the provided core, so a transaction is
modelled by what the jobs consume: its `inputs` array and the observable
behaviour of its `signInput` method, namely whether the call reports
success as a function of the argument list it receives. -/

/-- One transaction input: its script and witness (read back by the sign
jobs). -/
structure TxInput where
  script : List Nat
  witness : List (List Nat)
deriving DecidableEq, Repr

/-- Argument values passable to the external `MTX#signInput` primitive.
`self` marks the transaction object being passed as its own argument. -/
inductive SigArg where
  | self
  | num (n : Nat)
  | buf (b : List Nat)
deriving DecidableEq, Repr

/-- Transaction as the jobs observe it: the `inputs` array, and the
truthiness of the external `MTX#signInput` call as a function of the
arguments handed to it. -/
structure Tx where
  inputs : List TxInput
  signInputReports : List SigArg → Bool

/-- Argument list `jobs.signInput` actually passes to the primitive:
`tx.signInput(tx, index, key, type)` (jobs.js line 366) — the transaction
itself rides along as an extra first argument. -/
def signInputCallArgs (index : Nat) (key : List Nat) (sighashType : Nat) :
    List SigArg :=
  [SigArg.self, SigArg.num index, SigArg.buf key, SigArg.num sighashType]

/-- Argument list of the documented contract (spec section 4.3):
`(inputIndex, privateKey, sighashType)`. -/
def signInputDocumentedArgs (index : Nat) (key : List Nat)
    (sighashType : Nat) : List SigArg :=
  [SigArg.num index, SigArg.buf key, SigArg.num sighashType]

namespace jobs

/-- `jobs.signInput` (jobs.js lines 365-373): invoke the transaction's
`signInput` with `(tx, index, key, type)`, read `tx.inputs[index]`, return
`null` on falsy result and the `(script, witness)` pair otherwise. -/
def signInput (tx : Tx) (index : Nat) (key : List Nat)
    (sighashType : Nat) : Option (List Nat × List (List Nat)) :=
  let result := tx.signInputReports (signInputCallArgs index key sighashType)
  let input := tx.inputs.getD index ⟨[], []⟩
  if result then some (input.script, input.witness) else none

/-- `jobs.scrypt` (jobs.js lines 425-427): direct delegation to the pure
`scrypt` function from lib/crypto/scrypt.js, which is outside the provided
core and is therefore a parameter. -/
def scrypt (scryptFn : List Nat → List Nat → Nat → Nat → Nat → Nat → List Nat)
    (passwd salt : List Nat) (N r p len : Nat) : List Nat :=
  scryptFn passwd salt N r p len

end jobs

/-! ### Worker pool round trip for the scrypt job -/

/-- Serializable argument/result values crossing the worker boundary. -/
inductive WVal where
  | buf (b : List Nat)
  | num (n : Nat)
deriving DecidableEq, Repr

/-- JobRequest of the spec data model: id, job name, ordered args. -/
structure JobRequest where
  id : Nat
  name : Nat
  args : List WVal
deriving DecidableEq, Repr

/-- Outcome field of a JobResponse. -/
inductive JobOutcome where
  | success (r : WVal)
  | failure
deriving DecidableEq, Repr

/-- JobResponse of the spec data model: matching id plus outcome. -/
structure JobResponse where
  id : Nat
  outcome : JobOutcome
deriving DecidableEq, Repr

/-- Name code of the scrypt entry in the fixed job set. -/
def scryptJobName : Nat := 7

/-- Worker-side dispatch of a request through the registry, for the scrypt
entry (jobs.js lines 425-427); a name or argument shape outside the
modelled entry reports failure. -/
def registryRun
    (scryptFn : List Nat → List Nat → Nat → Nat → Nat → Nat → List Nat)
    (name : Nat) (args : List WVal) : JobOutcome :=
  if name = scryptJobName then
    match args with
    | [WVal.buf passwd, WVal.buf salt, WVal.num N, WVal.num r,
        WVal.num p, WVal.num len] =>
      JobOutcome.success (WVal.buf (jobs.scrypt scryptFn passwd salt N r p len))
    | _ => JobOutcome.failure
  else JobOutcome.failure

/-- Modelled from the spec: the `WorkerPool.execute` path — the pool code
in lib/workers/workers.js is not among the provided files. Spec section 2:
the pool assigns a worker and sends `{id, jobName, args}` over a
WorkerChannel; the worker resolves `jobName` via the JobRegistry, executes
it, and returns a result or error; on a matching JobResponse the pool
settles the caller with that outcome (section 4.4). -/
def poolExecute
    (scryptFn : List Nat → List Nat → Nat → Nat → Nat → Nat → List Nat)
    (freshId : Nat) (name : Nat) (args : List WVal) : JobOutcome :=
  let req : JobRequest := ⟨freshId, name, args⟩
  let resp : JobResponse := ⟨req.id, registryRun scryptFn req.name req.args⟩
  if resp.id = req.id then resp.outcome else JobOutcome.failure

/-- Byte content of the ASCII string pass. -/
def passBytes : List Nat := [112, 97, 115, 115]

/-- Byte content of the ASCII string NaCl. -/
def naclBytes : List Nat := [78, 97, 67, 108]

/-! ### Environment configuration (lib/env.js lines 236-264)

Option fields are JavaScript values; strings are modelled as char-code
lists so that the empty string is falsy. `utils.isNumber` comes from
lib/utils/utils.js, which is not among the provided files. -/

/-- JavaScript value occupying an option field. -/
inductive JsV where
  | undef
  | jbool (b : Bool)
  | jnum (n : Int)
  | jnan
  | jstr (s : List Nat)
deriving DecidableEq, Repr

/-- Modelled from the spec: `utils.isNumber` (lib/utils/utils.js is not
among the provided files) — the finite-number test guarding the numeric
options, per section 6: unspecified numeric options keep compiled-in
defaults. True exactly on number-typed finite values; `NaN` (the result of
coercing an unset environment variable, env.js lines 225-227) fails it. -/
def isNumber : JsV → Bool
  | JsV.jnum _ => true
  | _ => false

/-- The `typeof options.useWorkers === 'boolean'` test (env.js line 246). -/
def isBooleanType : JsV → Bool
  | JsV.jbool _ => true
  | _ => false

/-- JavaScript truthiness of an option field (env.js line 243). -/
def truthy : JsV → Bool
  | JsV.undef => false
  | JsV.jbool b => b
  | JsV.jnum n => decide (n ≠ 0)
  | JsV.jnan => false
  | JsV.jstr s => decide (s ≠ [])

/-- Read a boolean-typed field. -/
def boolVal : JsV → Bool
  | JsV.jbool b => b
  | _ => false

/-- Read a number-typed field. -/
def jnumVal : JsV → Int
  | JsV.jnum n => n
  | _ => 0

/-- Option fields consulted by `Environment.set`. -/
structure Options where
  network : JsV
  useWorkers : JsV
  maxWorkers : JsV
  workerTimeout : JsV
  sigcacheSize : JsV
deriving DecidableEq, Repr

/-- Settings `Environment.set` writes: the selected network, the
`useWorkers` flag, the worker pool size and timeout
(`this.workerPool.size` / `.timeout`), and the signature cache size
(`this.sigcache.resize`). -/
structure Environment where
  networkType : JsV
  useWorkers : Bool
  workerPoolSize : Int
  workerPoolTimeout : Int
  sigcacheSize : Int
deriving DecidableEq, Repr

/-- Argument to `set`: a string, an options object, or a nullish value
(env.js lines 237-241). -/
inductive SetArg where
  | strArg (s : List Nat)
  | objArg (o : Options)
  | nullish
deriving DecidableEq

/-- Normalization at the top of `set` (env.js lines 237-241): a string
becomes `{ network: options }`, a nullish value becomes `{}`. -/
def normalizeOptions : SetArg → Options
  | SetArg.strArg s => ⟨JsV.jstr s, JsV.undef, JsV.undef, JsV.undef, JsV.undef⟩
  | SetArg.objArg o => o
  | SetArg.nullish => ⟨JsV.undef, JsV.undef, JsV.undef, JsV.undef, JsV.undef⟩

/-- `Environment.prototype.set` (env.js lines 236-264). `isBrowser` is the
external `utils.isBrowser`; `hasWorkerGlobal` is whether the browser global
scope offers a `Worker`/`postMessage` function (lines 255-258). Guards and
assignment order follow the source: network (243-244), useWorkers
(246-247), maxWorkers (249-250), workerTimeout (252-253), the browser
downgrade (255-258), sigcacheSize (260-261). -/
def Environment.set (isBrowser hasWorkerGlobal : Bool) (env : Environment)
    (arg : SetArg) : Environment :=
  let options := normalizeOptions arg
  let e1 := if truthy options.network then
    { env with networkType := options.network } else env
  let e2 := if isBooleanType options.useWorkers then
    { e1 with useWorkers := boolVal options.useWorkers } else e1
  let e3 := if isNumber options.maxWorkers then
    { e2 with workerPoolSize := jnumVal options.maxWorkers } else e2
  let e4 := if isNumber options.workerTimeout then
    { e3 with workerPoolTimeout := jnumVal options.workerTimeout } else e3
  let e5 := if isBrowser && e4.useWorkers then
    { e4 with useWorkers := hasWorkerGlobal } else e4
  if isNumber options.sigcacheSize then
    { e5 with sigcacheSize := jnumVal options.sigcacheSize } else e5

/-- Options object with every field unset. -/
def emptyOptions : Options :=
  ⟨JsV.undef, JsV.undef, JsV.undef, JsV.undef, JsV.undef⟩

/-! ## Theorems -/

/-- C1, counterexample. The claim says a failed `close()` reverts the
component to Open (still loaded) so that a later `close()` invokes the
teardown hook again. In the code (async.js lines 104-121), `loaded` is
cleared at the start of the transition and never restored on failure: from
Open, a failing teardown leaves `loaded = false` (not Open), and a second
`close()` takes the not-loaded fast path without invoking the hook. -/
theorem C1_counterexample :
    (AsyncObject.close AsyncObject.openSt (Except.error 3)).state.loaded = false ∧
    (AsyncObject.close AsyncObject.openSt (Except.error 3)).state ≠
      AsyncObject.openSt ∧
    (AsyncObject.close
        (AsyncObject.close AsyncObject.openSt (Except.error 3)).state
        (Except.error 3)).hookInvoked = false := by
  decide

/-- C1, amended. For a component in state Open, a `close()` whose teardown
hook fails throws the hook's error and leaves the component in state Idle
(all flags false, in particular no longer loaded), and a subsequent
`close()` returns immediately without invoking the teardown hook and
without changing the state. -/
theorem C1_amended_close_failure_ends_idle (s : AsyncObject) (e : Nat)
    (h : s = AsyncObject.openSt) :
    AsyncObject.close s (Except.error e) =
      ⟨AsyncObject.init, Outcome.failed e, true, true⟩ ∧
    ∀ hook, AsyncObject.close AsyncObject.init hook =
      ⟨AsyncObject.init, Outcome.noop, false, false⟩ := by
  subst h
  exact ⟨rfl, fun _ => rfl⟩

/-- C1, witness for the amended theorem. -/
theorem C1_amended_witness :
    AsyncObject.close AsyncObject.openSt (Except.error 3) =
      ⟨AsyncObject.init, Outcome.failed 3, true, true⟩ :=
  (C1_amended_close_failure_ends_idle AsyncObject.openSt 3 rfl).1

/-- C2, counterexample. The claim says each waiter registered during the
in-flight open has its promise rejected with the original error. A waiter's
promise is created by `_onOpen` (async.js lines 183-188), which registers
only `resolve` on the "open" event; `_error` (lines 145-155) invokes that
listener with the error, so the waiter's promise is FULFILLED with the
error value, not rejected: with one waiter and error 7 the settlement is
`fulfilled 7`, which differs from `rejected 7`. -/
theorem C2_counterexample :
    (openFailureCompletion AsyncObject.opening [0] 7).2.1.1 =
      [(0, Settled.fulfilled 7)] ∧
    Settled.fulfilled 7 ≠ Settled.rejected 7 := by
  decide

/-- C2, amended. When the initialization hook fails, every waiter that
registered during the in-flight open has its registered continuation
invoked with the original error, so its promise is fulfilled with the
error as its value (not rejected); the "open" listener list is left empty,
and the initiating caller's own promise is rejected with the original
error. -/
theorem C2_amended_waiters_fulfilled_with_error (s : AsyncObject)
    (waiters : List Nat) (err : Nat) :
    (openFailureCompletion s waiters err).2.1.1 =
      waiters.map (fun w => (w, Settled.fulfilled err)) ∧
    (openFailureCompletion s waiters err).2.1.2 = [] ∧
    (openFailureCompletion s waiters err).2.2 = Settled.rejected err :=
  ⟨rfl, rfl, rfl⟩

/-- C3, code evaluation. `jobs.signInput` (jobs.js line 366) calls
`tx.signInput(tx, index, key, type)`: the transaction itself is passed as
an extra first argument, so the primitive does not receive exactly the
documented `(inputIndex, privateKey, sighashType)`. A transaction whose
primitive recognizes the actual (shifted) argument list reports success
and the job returns the pair `(script, witness)`; one expecting the
documented argument list reports failure. -/
theorem C3_code_evaluation :
    signInputCallArgs 0 [1] 1 = SigArg.self :: signInputDocumentedArgs 0 [1] 1 ∧
    signInputCallArgs 0 [1] 1 ≠ signInputDocumentedArgs 0 [1] 1 ∧
    jobs.signInput
        ⟨[⟨[5], [[6]]⟩], fun args => decide (args = signInputCallArgs 0 [1] 1)⟩
        0 [1] 1 = some ([5], [[6]]) ∧
    jobs.signInput
        ⟨[⟨[5], [[6]]⟩],
          fun args => decide (args = signInputDocumentedArgs 0 [1] 1)⟩
        0 [1] 1 = none := by
  refine ⟨by decide, by decide, rfl, rfl⟩

/-- C4. Calling `open()` while a close is in flight (`closing` set), or
`close()` while an open is in flight (`loading` set), fails immediately
with the corresponding usage error: the assert at the top of each method
(async.js lines 44 and 91) throws before the lock-acquisition step and
before any hook runs, and the state — hence the in-flight opposite
transition — is unchanged. -/
theorem C4_opposite_transition_fails_fast (s : AsyncObject)
    (hookO hookC : Except Nat Unit) :
    (s.closing = true →
      AsyncObject.openCall s hookO =
        ⟨s, Outcome.usageError UsageMsg.cannotOpenWhileClosing, false, false⟩) ∧
    (s.loading = true →
      AsyncObject.close s hookC =
        ⟨s, Outcome.usageError UsageMsg.cannotCloseWhileLoading, false, false⟩) := by
  constructor <;> intro h <;>
    simp [AsyncObject.openCall, AsyncObject.close, h]

/-- C4, witness: from the mid-close state, `open()` fails fast; from the
mid-open state, `close()` fails fast. -/
theorem C4_witness :
    AsyncObject.openCall AsyncObject.closingSt (Except.ok ()) =
      ⟨AsyncObject.closingSt, Outcome.usageError UsageMsg.cannotOpenWhileClosing,
        false, false⟩ ∧
    AsyncObject.close AsyncObject.opening (Except.ok ()) =
      ⟨AsyncObject.opening, Outcome.usageError UsageMsg.cannotCloseWhileLoading,
        false, false⟩ :=
  ⟨(C4_opposite_transition_fails_fast AsyncObject.closingSt (Except.ok ())
      (Except.ok ())).1 rfl,
    (C4_opposite_transition_fails_fast AsyncObject.opening (Except.ok ())
      (Except.ok ())).2 rfl⟩

/-- C5. `open()` never invokes the initialization hook from a state that is
Open or Opening (the `loaded` fast path, line 46, and the `loading` wait
path, line 49); consequently one initiating `open()` from Idle plus any
number of overlapping `open()` calls issued while the transition is in
flight invoke the hook exactly once in total. -/
theorem C5_open_hook_invoked_once (s : AsyncObject) (hook : Except Nat Unit)
    (n : Nat) :
    (s.loaded = true ∨ s.loading = true →
      (AsyncObject.openCall s hook).hookInvoked = false) ∧
    (if (AsyncObject.openCall AsyncObject.init hook).hookInvoked then 1 else 0)
        + ((List.replicate n (AsyncObject.openCall AsyncObject.opening hook)).map
          (fun r => if r.hookInvoked then 1 else 0)).sum = 1 := by
  constructor
  · intro h
    cases hc : s.closing
    · cases h with
      | inl hd => simp [AsyncObject.openCall, hc, hd]
      | inr hl => cases hd : s.loaded <;>
          simp [AsyncObject.openCall, hc, hd, hl]
    · simp [AsyncObject.openCall, hc]
  · cases hook <;>
      simp [AsyncObject.openCall, AsyncObject.init, AsyncObject.opening,
        List.map_replicate, List.sum_replicate]

/-- C5, witness: an `open()` on an already-open component invokes no hook,
and one initiating call plus two overlapping calls invoke the hook once. -/
theorem C5_witness :
    (AsyncObject.openCall AsyncObject.openSt (Except.ok ())).hookInvoked =
      false :=
  (C5_open_hook_invoked_once AsyncObject.openSt (Except.ok ()) 2).1 (Or.inl rfl)

/-- C6. When `open()` reaches the initialization hook (no close in flight,
not loaded, not already loading) and the hook fails, the call throws the
hook's error and leaves the component in the Idle state (all flags false),
and any subsequent `open()` invokes the initialization hook again. -/
theorem C6_failed_open_ends_idle_and_retries (s : AsyncObject) (e : Nat)
    (h1 : s.closing = false) (h2 : s.loaded = false) (h3 : s.loading = false) :
    (AsyncObject.openCall s (Except.error e)).state = AsyncObject.init ∧
    (AsyncObject.openCall s (Except.error e)).outcome = Outcome.failed e ∧
    ∀ hook, (AsyncObject.openCall
        (AsyncObject.openCall s (Except.error e)).state hook).hookInvoked =
      true := by
  rcases s with ⟨l, c, d⟩
  dsimp at h1 h2 h3
  subst h1; subst h2; subst h3
  refine ⟨rfl, rfl, fun hook => ?_⟩
  cases hook <;> rfl

/-- C6, witness. -/
theorem C6_witness :
    (AsyncObject.openCall AsyncObject.init (Except.error 9)).state =
      AsyncObject.init ∧
    (AsyncObject.openCall AsyncObject.init (Except.error 9)).outcome =
      Outcome.failed 9 :=
  ⟨(C6_failed_open_ends_idle_and_retries AsyncObject.init 9 rfl rfl rfl).1,
    (C6_failed_open_ends_idle_and_retries AsyncObject.init 9 rfl rfl rfl).2.1⟩

/-- C7, counterexample. The claim quantifies over every component not in
state Open, but in state Opening (mid-flight open, `loading` set, not
loaded) `close()` does not return successfully: the assert at async.js
line 91 throws the cannot-close-while-loading usage error. -/
theorem C7_counterexample :
    AsyncObject.opening.loaded = false ∧
    (AsyncObject.close AsyncObject.opening (Except.ok ())).outcome =
      Outcome.usageError UsageMsg.cannotCloseWhileLoading := by
  decide

/-- C7, amended. For every component that is neither loaded nor mid-open
(`loaded = false` and `loading = false` — in particular one that has never
been opened), `close()` returns successfully without invoking the teardown
hook, without reaching the lock, and without changing the state; in state
Opening, `close()` instead fails with the usage error. -/
theorem C7_amended_close_noop_when_not_loaded (s : AsyncObject)
    (hook : Except Nat Unit) (h1 : s.loaded = false) (h2 : s.loading = false) :
    AsyncObject.close s hook = ⟨s, Outcome.noop, false, false⟩ := by
  simp [AsyncObject.close, h1, h2]

/-- C7, witness: `close()` on a freshly constructed component. -/
theorem C7_amended_witness :
    AsyncObject.close AsyncObject.init (Except.ok ()) =
      ⟨AsyncObject.init, Outcome.noop, false, false⟩ :=
  C7_amended_close_noop_when_not_loaded AsyncObject.init (Except.ok ()) rfl rfl

/-- C8. Executing the scrypt job through the pool returns exactly the bytes
of the direct pure-function call on the same arguments, for every scrypt
function, request id, password, salt, N, r, p and output length; in
particular for the bytes of pass / NaCl with N=2, r=8, p=1, len=32 the
pool result equals `jobs.scrypt` applied directly. -/
theorem C8_pool_scrypt_equals_direct
    (scryptFn : List Nat → List Nat → Nat → Nat → Nat → Nat → List Nat)
    (freshId : Nat) (passwd salt : List Nat) (N r p len : Nat) :
    poolExecute scryptFn freshId scryptJobName
        [WVal.buf passwd, WVal.buf salt, WVal.num N, WVal.num r,
          WVal.num p, WVal.num len] =
      JobOutcome.success (WVal.buf (scryptFn passwd salt N r p len)) ∧
    poolExecute scryptFn freshId scryptJobName
        [WVal.buf passBytes, WVal.buf naclBytes, WVal.num 2, WVal.num 8,
          WVal.num 1, WVal.num 32] =
      JobOutcome.success
        (WVal.buf (jobs.scrypt scryptFn passBytes naclBytes 2 8 1 32)) := by
  constructor <;> simp [poolExecute, registryRun, jobs.scrypt]

/-- C9, counterexample. The claim says only a boolean-typed field changes
the `useWorkers` flag, but in a browser environment (env.js lines 255-258)
a `set()` call with an empty options object — no boolean field at all —
downgrades `useWorkers` from true to false when no Worker global exists. -/
theorem C9_counterexample :
    isBooleanType emptyOptions.useWorkers = false ∧
    (⟨JsV.undef, true, 6, 60000, 0⟩ : Environment).useWorkers = true ∧
    (Environment.set true false ⟨JsV.undef, true, 6, 60000, 0⟩
      (SetArg.objArg emptyOptions)).useWorkers = false := by
  decide

/-- C9, amended. For every options object: a `maxWorkers`, `workerTimeout`
or `sigcacheSize` field that is absent or not a number leaves the worker
pool size, worker timeout and signature-cache size unchanged; outside the
browser environment, only a field of boolean type changes the `useWorkers`
flag; in the browser environment, a call without a boolean field rewrites
`useWorkers` to its prior value AND-ed with the availability of a Worker
global. -/
theorem C9_amended_set_frame (isBrowser hasW : Bool) (env : Environment)
    (o : Options) :
    (isNumber o.maxWorkers = false →
      (Environment.set isBrowser hasW env (SetArg.objArg o)).workerPoolSize =
        env.workerPoolSize) ∧
    (isNumber o.workerTimeout = false →
      (Environment.set isBrowser hasW env (SetArg.objArg o)).workerPoolTimeout =
        env.workerPoolTimeout) ∧
    (isNumber o.sigcacheSize = false →
      (Environment.set isBrowser hasW env (SetArg.objArg o)).sigcacheSize =
        env.sigcacheSize) ∧
    (isBrowser = false → isBooleanType o.useWorkers = false →
      (Environment.set isBrowser hasW env (SetArg.objArg o)).useWorkers =
        env.useWorkers) ∧
    (isBrowser = true → isBooleanType o.useWorkers = false →
      (Environment.set isBrowser hasW env (SetArg.objArg o)).useWorkers =
        (env.useWorkers && hasW)) := by
  cases hn : truthy o.network <;>
    cases hu : isBooleanType o.useWorkers <;>
    cases hb : boolVal o.useWorkers <;>
    cases hm : isNumber o.maxWorkers <;>
    cases ht : isNumber o.workerTimeout <;>
    cases hs : isNumber o.sigcacheSize <;>
    cases isBrowser <;>
    cases hw : env.useWorkers <;>
    simp_all [Environment.set, normalizeOptions]

/-- C9, witness for the amended theorem. -/
theorem C9_amended_witness :
    (Environment.set false false ⟨JsV.undef, false, 6, 60000, 0⟩
      (SetArg.objArg emptyOptions)).workerPoolSize =
      (⟨JsV.undef, false, 6, 60000, 0⟩ : Environment).workerPoolSize :=
  (C9_amended_set_frame false false ⟨JsV.undef, false, 6, 60000, 0⟩
    emptyOptions).1 rfl

/-- Each observable open/close step preserves the at-most-one-flag
invariant. -/
theorem Step.preserves_flagCount (a b : AsyncObject) (hst : Step a b)
    (ih : a.flagCount ≤ 1) : b.flagCount ≤ 1 := by
  cases hst with
  | openStart h1 h2 h3 =>
      simp [AsyncObject.flagCount, h1, h2, h3]
  | openFinishOk h1 =>
      cases hc : a.closing <;> cases hd : a.loaded <;>
        simp_all [AsyncObject.flagCount]
  | openFinishErr h1 =>
      cases hc : a.closing <;> cases hd : a.loaded <;>
        simp_all [AsyncObject.flagCount]
  | closeStart h1 h2 h3 =>
      simp [AsyncObject.flagCount, h1, h2, h3]
  | closeFinishOk h1 =>
      cases hl : a.loading <;> cases hd : a.loaded <;>
        simp_all [AsyncObject.flagCount]
  | closeFinishErr h1 =>
      cases hl : a.loading <;> cases hd : a.loaded <;>
        simp_all [AsyncObject.flagCount]

/-- C10. In every state reachable from construction by observable open and
close steps, at most one of the `loading`, `closing` and `loaded` flags is
set, so the all-false state encodes Idle and each single-flag state encodes
Opening, Closing or Open; every step preserves this. -/
theorem C10_flags_mutually_exclusive (s : AsyncObject) (h : Reachable s) :
    s.flagCount ≤ 1 := by
  unfold Reachable at h
  induction h with
  | refl => decide
  | tail _ hbc ih => exact Step.preserves_flagCount _ _ hbc ih

/-- C10, witness: the freshly constructed state is reachable and satisfies
the invariant. -/
theorem C10_witness : AsyncObject.flagCount AsyncObject.init ≤ 1 :=
  C10_flags_mutually_exclusive AsyncObject.init Relation.ReflTransGen.refl

end Bcoin
